import Mathlib

/-!
Shallow embedding of `src/live_canvas.js` (class `LiveCanvas`): a collaborative
canvas client that relays pointer/stroke events over a pub/sub bus.

Conventions of the embedding:
* JS numbers are modelled as `ℚ` (positions) and `ℤ` (timestamps).
* A JS object field that may be `undefined` is an `Option`.
* The Peer State Store `this.users` is a map `String → Option User`.
* Side-effecting draw calls are reified as returned lists (`StrokeCall` for
  `drawStroke` invocations, per-user cursor flags for the frame loop).
* Exceptions are reified as `Except JsError`.
-/

namespace LiveCanvas

/-- A participant record in `this.users` (`{x, y, color, lastSeen}`, line 19).
Fields may be absent/`undefined`, hence `Option`. -/
structure User where
  x : Option ℚ
  y : Option ℚ
  color : Option String
  lastSeen : Option ℤ
deriving DecidableEq

/-- The fresh record `{}` created by `this.users[data.id] || {}` (line 137). -/
def emptyUser : User := ⟨none, none, none, none⟩

/-- The Peer State Store `this.users`, a JS object keyed by id strings. -/
def Users := String → Option User

/-- The initial empty store (`this.users = {}`, line 19). -/
def emptyUsers : Users := fun _ => none

/-- JS property write `this.users[k] = u`. -/
def updateStore (st : Users) (k : String) (u : User) : Users :=
  fun id => if id = k then some u else st id

/-- The relevant projections of a successfully parsed inbound JSON value
(`data` in `onMessageArrived`/`handleRemoteData`). Any projection may be
`undefined` (`none`): the code never validates the structure. -/
structure RData where
  type : Option String
  x : Option ℚ
  y : Option ℚ
  id : Option String
  color : Option String
deriving DecidableEq

/-- JS object indexing `this.users[data.id]` coerces an `undefined` key to the
string `"undefined"`. -/
def jsKey : Option String → String
  | some s => s
  | none => "undefined"

/-- One invocation of `drawStroke(start, end, color)` recorded with its raw
(normalized-coordinate) arguments; coordinates may be `undefined`. -/
structure StrokeCall where
  startX : Option ℚ
  startY : Option ℚ
  endX : Option ℚ
  endY : Option ℚ
  color : Option String
deriving DecidableEq

/-- Embeds `handleRemoteData(data)` (lines 136-156): merges the event into the
store and, for a `draw` event with a previously known position, renders one
remote stroke. Returns the new store and the list of `drawStroke` calls made. -/
def handleRemoteData (data : RData) (now : ℤ) (users : Users) :
    Users × List StrokeCall :=
  let key := jsKey data.id
  let user := (users key).getD emptyUser
  if data.type = some "move" then
    (updateStore users key ⟨data.x, data.y, data.color, some now⟩, [])
  else if data.type = some "draw" then
    (updateStore users key ⟨data.x, data.y, data.color, some now⟩,
      if user.x ≠ none then
        [⟨user.x, user.y, data.x, data.y, data.color⟩]
      else [])
  else
    (updateStore users key user, [])

/-- Outcome of `JSON.parse(message.payloadString)` on an inbound payload:
`parseFail` if parsing throws, `parsedNull` if it yields `null` (so any
property access throws `TypeError`), `val d` for any other value with its
projections (primitives and arrays have all projections `undefined`). -/
inductive Msg where
  | parseFail
  | parsedNull
  | val (d : RData)
deriving DecidableEq

/-- The JS exceptions that can arise in the embedded fragments. -/
inductive JsError where
  | parseError
  | typeError
deriving DecidableEq

/-- The body of the `try` block of `onMessageArrived` (lines 75-79): parse,
drop self-originated events, otherwise forward to `handleRemoteData`. -/
def onMessageCore (m : Msg) (myId : String) (now : ℤ) (users : Users) :
    Except JsError (Users × List StrokeCall) :=
  match m with
  | .parseFail => .error .parseError
  | .parsedNull => .error .typeError
  | .val d =>
      if d.id = some myId then .ok (users, [])
      else .ok (handleRemoteData d now users)

/-- The full `onMessageArrived` handler (lines 74-83): the `catch` logs the
error and leaves all state unchanged. -/
def onMessageArrived (m : Msg) (myId : String) (now : ℤ) (users : Users) :
    Users × List StrokeCall :=
  match onMessageCore m myId now users with
  | .error _ => (users, [])
  | .ok r => r

/-- Local identity generation (line 15):
`this.myId = 'user_' + Math.floor(Math.random() * 100000)`, for a draw of `r`. -/
def mkMyId (r : ℕ) : String := "user_" ++ toString (r % 100000)

/-- The fixed topic `this.topic = "jvav/live/interaction"` (line 26). -/
def topic : String := "jvav/live/interaction"

/-- The transport client as far as `publish` observes it: `isConnected()`. -/
structure Client where
  connected : Bool
deriving DecidableEq

/-- An outgoing intent as built by `onMove` (`{type, x, y}`). -/
structure IntentData where
  type : String
  x : ℚ
  y : ℚ
deriving DecidableEq

/-- The serialized outbound payload `{...data, id: this.myId, color: this.myColor}`
(line 99): the spread copies `type, x, y` and the local id and color are attached. -/
structure Wire where
  type : String
  x : ℚ
  y : ℚ
  id : String
  color : String
deriving DecidableEq

/-- Embeds `publish(data)` (lines 97-102). When `Paho` was absent at startup,
`this.client` is `undefined` (`client = none` here) and the call
`this.client.isConnected()` throws `TypeError`. Otherwise: silent no-op when
disconnected, else the serialized message is sent on the fixed topic. -/
def publish (client : Option Client) (data : IntentData) (myId myColor : String) :
    Except JsError (Option (String × Wire)) :=
  match client with
  | none => .error .typeError
  | some c =>
      if !c.connected then .ok none
      else .ok (some (topic, ⟨data.type, data.x, data.y, myId, myColor⟩))

/-- Embeds `getPos(e)` (lines 104-110): pixel-to-normalized conversion,
`((clientX - rect.left) / canvas.width, (clientY - rect.top) / canvas.height)`. -/
def getPos (clientX clientY left top w h : ℚ) : ℚ × ℚ :=
  ((clientX - left) / w, (clientY - top) / h)

/-- The coordinate scaling performed by `drawStroke` (lines 158-165):
each normalized endpoint is mapped to pixels as `(x * width, y * height)`. -/
def drawStroke (s e : ℚ × ℚ) (w h : ℚ) : (ℚ × ℚ) × (ℚ × ℚ) :=
  ((s.1 * w, s.2 * h), (e.1 * w, e.2 * h))

/-- Embeds `onMove(e)` (lines 112-125): compute the normalized position; while
drawing, render the local segment from `lastPos` immediately and advance
`lastPos`; in all cases publish the intent last. Returns the local `drawStroke`
calls, the new `lastPos`, and the outcome of `publish`. -/
def onMove (clientX clientY left top w h : ℚ) (isDrawing : Bool)
    (lastPos : ℚ × ℚ) (client : Option Client) (myId myColor : String) :
    List StrokeCall × (ℚ × ℚ) × Except JsError (Option (String × Wire)) :=
  let pos := getPos clientX clientY left top w h
  if isDrawing then
    ([⟨some lastPos.1, some lastPos.2, some pos.1, some pos.2, some myColor⟩],
      pos, publish client ⟨"draw", pos.1, pos.2⟩ myId myColor)
  else
    ([], lastPos, publish client ⟨"move", pos.1, pos.2⟩ myId myColor)

/-- The staleness test `now - user.lastSeen > 10000` (line 180). When
`lastSeen` is `undefined`, the JS subtraction yields `NaN` and the comparison
is false, so the record is never evicted. -/
def staleCheck (now : ℤ) (u : User) : Bool :=
  match u.lastSeen with
  | some t => decide (now - t > 10000)
  | none => false

/-- The per-user body of the frame loop (lines 178-196): delete if stale,
otherwise keep and draw a cursor marker exactly when `user.x !== undefined`.
Returns (record after the pass, whether a cursor was drawn). -/
def animateUser (now : ℤ) (u : User) : Option User × Bool :=
  if staleCheck now u then (none, false)
  else (some u, u.x.isSome)

/-- The store after one frame-loop eviction pass at time `now`
(the spec calls this `evictStale(now)`). -/
def evictStale (now : ℤ) (st : Users) : Users :=
  fun id => (st id).bind fun u => (animateUser now u).1

/-- Follows the spec's words (section 6, "Wire payload"): a well-formed event is
`{"type":"move"|"draw","x":<float>,"y":<float>,"id":"<string>","color":"<css-color-string>"}`.
Used only to state which inbound payloads the spec considers well-formed. -/
def specWellFormedEvent (d : RData) : Bool :=
  (d.type = some "move" || d.type = some "draw")
    && d.x.isSome && d.y.isSome && d.id.isSome && d.color.isSome

/-- A concrete retained/evicted participant record for witness statements. -/
def witnessUser : User := ⟨some (1/2), some (1/2), some "red", some 0⟩

/-- A concrete one-entry store for witness statements. -/
def witnessStore : Users := updateStore emptyUsers "u1" witnessUser

/-- The first event of the spec's move-then-draw scenario. -/
def moveEvt : RData := ⟨some "move", some (1/2), some (1/2), some "u1", some "red"⟩

/-- The second event of the spec's move-then-draw scenario (`0.6 = 3/5`). -/
def drawEvt : RData := ⟨some "draw", some (3/5), some (1/2), some "u1", some "red"⟩

/-- The generated local id never collides with the string `"undefined"` that a
missing `data.id` coerces to. -/
theorem mkMyId_ne_undefined (r : ℕ) : mkMyId r ≠ "undefined" := by
  intro h
  have h2 : ("user_" ++ toString (r % 100000)).data = "undefined".data :=
    congrArg String.data h
  rw [String.data_append] at h2
  simp [String.data] at h2

/-- Every branch of `handleRemoteData` writes only the key `jsKey data.id`. -/
theorem handleRemoteData_other_key (d : RData) (now : ℤ) (st : Users) (j : String)
    (hj : j ≠ jsKey d.id) : (handleRemoteData d now st).1 j = st j := by
  unfold handleRemoteData
  split
  · simp [updateStore, hj]
  · split <;> simp [updateStore, hj]

/-- Every branch of `handleRemoteData` stores a record under `jsKey data.id`. -/
theorem handleRemoteData_own_key (d : RData) (now : ℤ) (st : Users) :
    ((handleRemoteData d now st).1 (jsKey d.id)).isSome = true := by
  unfold handleRemoteData
  split
  · simp [updateStore]
  · split <;> simp [updateStore]

/-- An eviction pass keeps any record whose `lastSeen` is absent. -/
theorem evictStale_keep (now : ℤ) (st : Users) (i : String) (u : User)
    (h : st i = some u) (hl : u.lastSeen = none) :
    evictStale now st i = some u := by
  simp [evictStale, h, animateUser, staleCheck, hl]

/-- Any sequence of eviction passes keeps a record whose `lastSeen` is absent. -/
theorem foldl_evict_keep (ts : List ℤ) (st : Users) (i : String) (u : User)
    (h : st i = some u) (hl : u.lastSeen = none) :
    (ts.foldl (fun s t => evictStale t s) st) i = some u := by
  induction ts generalizing st with
  | nil => exact h
  | cons t ts ih => exact ih _ (evictStale_keep t st i u h hl)

/-- C1: an inbound message whose parsed id equals the local id is discarded at
ingress — the store is unchanged and no stroke is rendered — and processing any
inbound message never makes the local id appear as a key of the store. -/
theorem self_filtering (r : ℕ) (now : ℤ) (st : Users) :
    (∀ d : RData, d.id = some (mkMyId r) →
        onMessageArrived (Msg.val d) (mkMyId r) now st = (st, []))
    ∧ (st (mkMyId r) = none →
        ∀ m : Msg, (onMessageArrived m (mkMyId r) now st).1 (mkMyId r) = none) := by
  constructor
  · intro d hd
    simp [onMessageArrived, onMessageCore, hd]
  · intro h0 m
    match m with
    | .parseFail => simpa [onMessageArrived, onMessageCore] using h0
    | .parsedNull => simpa [onMessageArrived, onMessageCore] using h0
    | .val d =>
        by_cases hid : d.id = some (mkMyId r)
        · simpa [onMessageArrived, onMessageCore, hid] using h0
        · have hkey : mkMyId r ≠ jsKey d.id := by
            match d.id, hid with
            | none, _ => exact mkMyId_ne_undefined r
            | some s, hid => intro h; exact hid (by simp [jsKey] at h; simp [h])
          rw [onMessageArrived]
          rw [onMessageCore]
          rw [if_neg hid]
          rw [handleRemoteData_other_key d now st _ hkey]
          exact h0

/-- Witness for C1 at a concrete self-originated message and a concrete
foreign message against the empty store. -/
theorem self_filtering_witness :
    onMessageArrived (Msg.val ⟨some "move", some (1/2), some (1/2), some (mkMyId 0), some "red"⟩)
        (mkMyId 0) 5 emptyUsers = (emptyUsers, [])
    ∧ (onMessageArrived (Msg.val ⟨some "move", some (1/2), some (1/2), some "u1", some "red"⟩)
        (mkMyId 0) 5 emptyUsers).1 (mkMyId 0) = none :=
  ⟨(self_filtering 0 5 emptyUsers).1 _ rfl,
   (self_filtering 0 5 emptyUsers).2 rfl (Msg.val ⟨some "move", some (1/2), some (1/2), some "u1", some "red"⟩)⟩

/-- C2: an eviction pass at time `now` removes a participant whose `lastSeen`
lies more than 10000 ms in the past and retains one within 10000 ms. -/
theorem evictStale_window (now t : ℤ) (st : Users) (id : String) (u : User)
    (h : st id = some u) (hl : u.lastSeen = some t) :
    (now - t > 10000 → evictStale now st id = none)
    ∧ (now - t ≤ 10000 → evictStale now st id = some u) := by
  constructor
  · intro hgt
    simp [evictStale, h, animateUser, staleCheck, hl, hgt]
  · intro hle
    simp [evictStale, h, animateUser, staleCheck, hl]
    rw [if_neg (by omega)]

/-- Witness for C2: last seen at time 0, evicted at 10001 ms, retained at
9999 ms. -/
theorem evictStale_window_witness :
    evictStale 10001 witnessStore "u1" = none
    ∧ evictStale 9999 witnessStore "u1" = some witnessUser :=
  ⟨(evictStale_window 10001 0 witnessStore "u1" witnessUser rfl rfl).1 (by norm_num),
   (evictStale_window 9999 0 witnessStore "u1" witnessUser rfl rfl).2 (by norm_num)⟩

/-- C3 counterexample: the payload `{"type":"ping","id":"zzz"}` is not a
well-formed event by the spec's wire format, yet the handler mutates the Peer
State Store: the key `"zzz"` appears after processing. -/
theorem malformed_payload_counterexample :
    specWellFormedEvent ⟨some "ping", none, none, some "zzz", none⟩ = false
    ∧ emptyUsers "zzz" = none
    ∧ (onMessageArrived (Msg.val ⟨some "ping", none, none, some "zzz", none⟩)
        "user_1" 0 emptyUsers).1 "zzz" = some emptyUser :=
  ⟨rfl, rfl, rfl⟩

/-- C3 (amended): no exception escapes the handler, and a payload that fails
to parse (or parses to `null`) leaves the store unchanged; but a parsed JSON
value with a non-local id is always forwarded to `handleRemoteData`, which
stores a record under the payload's id key regardless of structure. -/
theorem malformed_payload_amended (myId : String) (now : ℤ) (st : Users) :
    onMessageArrived Msg.parseFail myId now st = (st, [])
    ∧ onMessageArrived Msg.parsedNull myId now st = (st, [])
    ∧ ∀ d : RData, d.id ≠ some myId →
        onMessageArrived (Msg.val d) myId now st = handleRemoteData d now st
        ∧ ((handleRemoteData d now st).1 (jsKey d.id)).isSome = true := by
  refine ⟨rfl, rfl, fun d hd => ⟨?_, handleRemoteData_own_key d now st⟩⟩
  simp [onMessageArrived, onMessageCore, hd]

/-- Witness for C3 (amended) at a parse failure and at the concrete invalid
payload `{"type":"ping","id":"zzz"}`. -/
theorem malformed_payload_amended_witness :
    onMessageArrived Msg.parseFail "user_1" 0 emptyUsers = (emptyUsers, [])
    ∧ onMessageArrived (Msg.val ⟨some "ping", none, none, some "zzz", none⟩)
        "user_1" 0 emptyUsers
      = handleRemoteData ⟨some "ping", none, none, some "zzz", none⟩ 0 emptyUsers
    ∧ ((handleRemoteData ⟨some "ping", none, none, some "zzz", none⟩ 0 emptyUsers).1
        "zzz").isSome = true := by
  obtain ⟨h1, -, h3⟩ := malformed_payload_amended "user_1" 0 emptyUsers
  obtain ⟨ha, hb⟩ := h3 ⟨some "ping", none, none, some "zzz", none⟩ (by decide)
  exact ⟨h1, ha, hb⟩

/-- C4: after `u1` sends a move at (0.5,0.5) and 3000 ms later a draw at
(0.6,0.5), the store maps `u1` to (0.6,0.5) with `lastSeen` refreshed to the
draw's time, exactly one stroke (0.5,0.5)→(0.6,0.5) in `u1`'s color was
rendered at receipt time, and the subsequent frame-loop pass keeps `u1` and
draws only a cursor marker (never a stroke). -/
theorem move_then_draw_scenario :
    (handleRemoteData drawEvt 3000 (handleRemoteData moveEvt 0 emptyUsers).1).1 "u1"
        = some ⟨some (3/5), some (1/2), some "red", some 3000⟩
    ∧ (handleRemoteData moveEvt 0 emptyUsers).2
        ++ (handleRemoteData drawEvt 3000 (handleRemoteData moveEvt 0 emptyUsers).1).2
        = [⟨some (1/2), some (1/2), some (3/5), some (1/2), some "red"⟩]
    ∧ animateUser 3000 ⟨some (3/5), some (1/2), some "red", some 3000⟩
        = (some ⟨some (3/5), some (1/2), some "red", some 3000⟩, true) :=
  ⟨rfl, rfl, rfl⟩

/-- C5: with a live transport object, `publish` attaches the local id and
color and sends on the fixed topic exactly when connected, is a silent no-op
when disconnected, and a local draw gesture while disconnected still renders
the local stroke while `publish` sends nothing. -/
theorem publish_contract (c : Client) (d : IntentData) (myId myColor : String)
    (clientX clientY left top w h : ℚ) (lastPos : ℚ × ℚ) :
    (c.connected = true →
      publish (some c) d myId myColor
        = .ok (some (topic, ⟨d.type, d.x, d.y, myId, myColor⟩)))
    ∧ (c.connected = false → publish (some c) d myId myColor = .ok none)
    ∧ (c.connected = false →
        onMove clientX clientY left top w h true lastPos (some c) myId myColor
          = ([⟨some lastPos.1, some lastPos.2, some ((clientX - left) / w),
                some ((clientY - top) / h), some myColor⟩],
              ((clientX - left) / w, (clientY - top) / h), .ok none)) := by
  refine ⟨fun hc => ?_, fun hc => ?_, fun hc => ?_⟩
  · simp [publish, hc]
  · simp [publish, hc]
  · simp [onMove, getPos, publish, hc]

/-- Witness for C5 at concrete connected and disconnected transports and the
spec's disconnected local draw gesture. -/
theorem publish_contract_witness :
    publish (some ⟨true⟩) ⟨"move", 1/2, 1/2⟩ "user_7" "blue"
      = .ok (some (topic, ⟨"move", 1/2, 1/2, "user_7", "blue"⟩))
    ∧ publish (some ⟨false⟩) ⟨"move", 1/2, 1/2⟩ "user_7" "blue" = .ok none
    ∧ onMove 3 3 0 0 10 10 true (1/5, 1/5) (some ⟨false⟩) "user_7" "blue"
      = ([⟨some (1/5), some (1/5), some (3/10), some (3/10), some "blue"⟩],
          (3/10, 3/10), .ok none) := by
  obtain ⟨h1, -, -⟩ :=
    publish_contract ⟨true⟩ ⟨"move", 1/2, 1/2⟩ "user_7" "blue" 3 3 0 0 10 10 (1/5, 1/5)
  obtain ⟨-, h2, h3⟩ :=
    publish_contract ⟨false⟩ ⟨"move", 1/2, 1/2⟩ "user_7" "blue" 3 3 0 0 10 10 (1/5, 1/5)
  refine ⟨h1 rfl, h2 rfl, ?_⟩
  have h4 := h3 rfl
  norm_num at h4
  exact h4

/-- C6: evaluation at the failing input. With `Paho` absent, `this.client` is
`undefined`; a pointer move while drawing still renders the local stroke and
advances `lastPos`, but `publish` dereferences the undefined client and throws
`TypeError` — the operation is not crash-free as the claim states. -/
theorem publish_throws_without_client :
    onMove 3 3 0 0 10 10 true (1/5, 1/5) none "user_1" "red"
      = ([⟨some (1/5), some (1/5), some (3/10), some (3/10), some "red"⟩],
          (3/10, 3/10), .error .typeError) := by
  unfold onMove getPos publish
  norm_num

/-- C7: `drawStroke` maps a normalized point `(x, y)` to pixel coordinates
`(x * width, y * height)`, and at nonzero canvas dimensions this scaling is
inverted by `getPos`'s pixel-to-normalized conversion. -/
theorem drawStroke_getPos_inverse (x y w h left top : ℚ)
    (hx0 : 0 ≤ x) (hx1 : x ≤ 1) (hy0 : 0 ≤ y) (hy1 : y ≤ 1)
    (hw : w ≠ 0) (hh : h ≠ 0) :
    drawStroke (x, y) (x, y) w h = ((x * w, y * h), (x * w, y * h))
    ∧ getPos (left + x * w) (top + y * h) left top w h = (x, y) := by
  constructor
  · rfl
  · simp only [getPos, Prod.mk.injEq]
    constructor
    · rw [add_sub_cancel_left, mul_div_cancel_right₀ x hw]
    · rw [add_sub_cancel_left, mul_div_cancel_right₀ y hh]

/-- Witness for C7 at `(x, y) = (1/2, 1/3)` on a 10 × 300 canvas whose
bounding rectangle starts at `(2, 4)`. -/
theorem drawStroke_getPos_inverse_witness :
    drawStroke (1/2, 1/3) (1/2, 1/3) 10 300 = ((1/2 * 10, 1/3 * 300), (1/2 * 10, 1/3 * 300))
    ∧ getPos (2 + 1/2 * 10) (4 + 1/3 * 300) 2 4 10 300 = (1/2, 1/3) :=
  drawStroke_getPos_inverse (1/2) (1/3) 10 300 2 4 (by norm_num) (by norm_num)
    (by norm_num) (by norm_num) (by norm_num) (by norm_num)

/-- C8 counterexample: the inbound move event with `x = 5`, `y = -3` is stored
verbatim, so the store holds a position outside `[0,1] × [0,1]`. -/
theorem stored_position_out_of_range :
    (handleRemoteData ⟨some "move", some 5, some (-3), some "evil", some "red"⟩
        0 emptyUsers).1 "evil"
      = some ⟨some 5, some (-3), some "red", some 0⟩
    ∧ ¬ ((0:ℚ) ≤ 5 ∧ (5:ℚ) ≤ 1 ∧ (0:ℚ) ≤ -3 ∧ (-3:ℚ) ≤ 1) :=
  ⟨rfl, by norm_num⟩

/-- C8 (amended): local input positions are normalized into `[0,1]` whenever
the pointer coordinates lie within the canvas bitmap rectangle (positive
dimensions), while inbound move events are stored verbatim with no range
validation. -/
theorem positions_normalized_amended
    (clientX clientY left top w h : ℚ) (hw : 0 < w) (hh : 0 < h)
    (h1 : left ≤ clientX) (h2 : clientX ≤ left + w)
    (h3 : top ≤ clientY) (h4 : clientY ≤ top + h) :
    (0 ≤ (getPos clientX clientY left top w h).1
      ∧ (getPos clientX clientY left top w h).1 ≤ 1
      ∧ 0 ≤ (getPos clientX clientY left top w h).2
      ∧ (getPos clientX clientY left top w h).2 ≤ 1)
    ∧ ∀ (d : RData) (now : ℤ) (st : Users), d.type = some "move" →
        (handleRemoteData d now st).1 (jsKey d.id)
          = some ⟨d.x, d.y, d.color, some now⟩ := by
  constructor
  · simp only [getPos]
    refine ⟨div_nonneg (by linarith) hw.le, ?_, div_nonneg (by linarith) hh.le, ?_⟩
    · rw [div_le_one hw]; linarith
    · rw [div_le_one hh]; linarith
  · intro d now st ht
    simp [handleRemoteData, ht, updateStore]

/-- Witness for C8 (amended) at a concrete in-rectangle pointer position and
the concrete out-of-range inbound event. -/
theorem positions_normalized_amended_witness :
    (0 ≤ (getPos 7 104 2 100 10 20).1 ∧ (getPos 7 104 2 100 10 20).1 ≤ 1
      ∧ 0 ≤ (getPos 7 104 2 100 10 20).2 ∧ (getPos 7 104 2 100 10 20).2 ≤ 1)
    ∧ (handleRemoteData ⟨some "move", some 5, some (-3), some "evil", some "red"⟩
        0 emptyUsers).1 (jsKey (some "evil"))
      = some ⟨some 5, some (-3), some "red", some 0⟩ := by
  obtain ⟨h1, h2⟩ := positions_normalized_amended 7 104 2 100 10 20 (by norm_num)
    (by norm_num) (by norm_num) (by norm_num) (by norm_num) (by norm_num)
  exact ⟨h1, h2 _ 0 emptyUsers rfl⟩

/-- C9: a draw event whose sender has no stored position (in particular an
unseen id) renders no stroke, yet the record is still created or merged with
the event's `x`, `y`, `color` and a fresh `lastSeen`. -/
theorem draw_without_prior_position (d : RData) (now : ℤ) (st : Users)
    (hd : d.type = some "draw")
    (hx : ((st (jsKey d.id)).getD emptyUser).x = none) :
    handleRemoteData d now st
      = (updateStore st (jsKey d.id) ⟨d.x, d.y, d.color, some now⟩, []) := by
  simp [handleRemoteData, hd, hx]

/-- Witness for C9 at a concrete draw event from the unseen id `"u9"`. -/
theorem draw_without_prior_position_witness :
    handleRemoteData ⟨some "draw", some (1/2), some (1/4), some "u9", some "blue"⟩ 7 emptyUsers
      = (updateStore emptyUsers "u9" ⟨some (1/2), some (1/4), some "blue", some 7⟩, []) :=
  draw_without_prior_position ⟨some "draw", some (1/2), some (1/4), some "u9", some "blue"⟩
    7 emptyUsers rfl rfl

/-- C10: a parsed payload with a non-local id whose type is neither `move` nor
`draw` inserts an empty record for that id (or leaves an existing one intact)
and renders nothing; a record with no `lastSeen` is never evicted by a frame
pass — and, if it also has no position, never drawn as a cursor — so it
survives any sequence of eviction passes. -/
theorem unknown_type_record (d : RData) (i : String) (now now2 : ℤ) (st : Users)
    (hid : d.id = some i) (hm : d.type ≠ some "move") (hd : d.type ≠ some "draw") :
    (st i = none → handleRemoteData d now st = (updateStore st i emptyUser, []))
    ∧ (∀ u, st i = some u → handleRemoteData d now st = (updateStore st i u, []))
    ∧ (∀ u : User, u.lastSeen = none → (animateUser now2 u).1 = some u)
    ∧ (∀ u : User, u.lastSeen = none → u.x = none →
        animateUser now2 u = (some u, false))
    ∧ (∀ (ts : List ℤ) (u : User), u.lastSeen = none →
        (ts.foldl (fun s t => evictStale t s) (updateStore st i u)) i = some u) := by
  have hkey : jsKey d.id = i := by rw [hid]; rfl
  refine ⟨?_, ?_, ?_, ?_, ?_⟩
  · intro h0
    simp [handleRemoteData, hm, hd, hkey, h0]
  · intro u h0
    simp [handleRemoteData, hm, hd, hkey, h0]
  · intro u hl
    simp [animateUser, staleCheck, hl]
  · intro u hl hx
    simp [animateUser, staleCheck, hl, hx]
  · intro ts u hl
    exact foldl_evict_keep ts _ i u (by simp [updateStore]) hl

/-- Witness for C10 at the concrete payload `{"type":"ping","id":"gh"}`
against the empty store, with eviction passes at times 5 and 999999. -/
theorem unknown_type_record_witness :
    handleRemoteData ⟨some "ping", none, none, some "gh", none⟩ 0 emptyUsers
      = (updateStore emptyUsers "gh" emptyUser, [])
    ∧ animateUser 99999 emptyUser = (some emptyUser, false)
    ∧ (([5, 999999] : List ℤ).foldl (fun s t => evictStale t s)
        (updateStore emptyUsers "gh" emptyUser)) "gh" = some emptyUser := by
  obtain ⟨h1, -, -, h4, h5⟩ := unknown_type_record ⟨some "ping", none, none, some "gh", none⟩
    "gh" 0 99999 emptyUsers rfl (by decide) (by decide)
  exact ⟨h1 rfl, h4 emptyUser rfl rfl, h5 [5, 999999] emptyUser rfl⟩

end LiveCanvas
